import Mathlib

/-!
Verification of the authentication workflow of the point-of-sales backend
(AuthenticationController: signIn, register, activate, forgetPassword,
recover).  The controller methods are embedded as pure functions from a
database state and the request fields to an outcome, a successor state and
a trace of gateway events; external libraries (bcrypt, jsonwebtoken) are
modelled by deterministic functions exposing exactly the contract the
controller relies on.
-/

namespace PoS

/-- Model of the bcrypt library: hashSync(plaintext, cost).  The real
function embeds a random salt; the model is deterministic, keeping the one
property the controller relies on: a digest verifies exactly against the
plaintext it was produced from. -/
def hashSync (plaintext : String) (cost : Nat) : String :=
  "bcrypt$" ++ toString cost ++ "$" ++ plaintext

/-- Model of bcrypt compareSync(plaintext, digest): true iff the digest was
produced by hashing this plaintext (all digests in this system use cost 10). -/
def compareSync (plaintext digest : String) : Bool :=
  digest == hashSync plaintext 10

/-- Character class of the local-part atoms of the email regular expression
in register: every character except the listed specials, the dot, the quote,
the at-sign and whitespace (the JavaScript class \s is modelled by
Char.isWhitespace). -/
def localChar (c : Char) : Bool :=
  !(c == '<' || c == '>' || c == '(' || c == ')' || c == '[' || c == ']' ||
    c == '\\' || c == '.' || c == ',' || c == ';' || c == ':' ||
    c == '@' || c == '"' || c.isWhitespace)

/-- Split a character list on a separator character (the separator is
consumed; empty segments are kept, as for a literal dot in the regular
expression). -/
def splitOnChar (sep : Char) : List Char → List (List Char)
  | [] => [[]]
  | c :: cs =>
    match splitOnChar sep cs, c == sep with
    | rest, true => [] :: rest
    | [], false => [[c]]
    | r :: rs, false => (c :: r) :: rs

/-- Local part, unquoted alternative of the regular expression:
dot-separated nonempty atoms of localChar characters. -/
def localDotAtoms (l : List Char) : Bool :=
  (splitOnChar '.' l).all (fun p => !p.isEmpty && p.all localChar)

/-- A character the JavaScript dot metacharacter matches (everything except
line terminators). -/
def dotChar (c : Char) : Bool :=
  !(c == '\n' || c == '\r' || c == Char.ofNat 0x2028 || c == Char.ofNat 0x2029)

/-- Local part, quoted alternative of the regular expression: a double
quote, one or more dot-matched characters, a double quote. -/
def localQuoted (l : List Char) : Bool :=
  match l with
  | '"' :: rest =>
    decide (2 ≤ rest.length) && rest.getLast? == some '"' && rest.dropLast.all dotChar
  | _ => false

/-- One to three ASCII digits (one IPv4 octet of the regular expression). -/
def octet (p : List Char) : Bool :=
  decide (1 ≤ p.length) && decide (p.length ≤ 3) && p.all Char.isDigit

/-- Domain, bracketed-IP alternative of the regular expression. -/
def domainIP (d : List Char) : Bool :=
  match d with
  | '[' :: rest =>
    match rest.getLast?, (splitOnChar '.' rest.dropLast) with
    | some ']', [a, b, c, e] => octet a && octet b && octet c && octet e
    | _, _ => false
  | _ => false

/-- Domain, dotted-labels alternative of the regular expression: one or
more labels of letters, digits and hyphens, then a top-level label of at
least two letters. -/
def domainLabels (d : List Char) : Bool :=
  match (splitOnChar '.' d).reverse with
  | tld :: labels =>
    decide (1 ≤ labels.length) && decide (2 ≤ tld.length) &&
    tld.all Char.isAlpha &&
    labels.all (fun p => !p.isEmpty && p.all (fun c => c.isAlphanum || c == '-'))
  | [] => false

/-- All decompositions of a character list as prefix ++ at-sign ++ suffix. -/
def atSplits : List Char → List (List Char × List Char)
  | [] => []
  | c :: cs =>
    (if c == '@' then [(([] : List Char), cs)] else []) ++
      (atSplits cs).map (fun p => (c :: p.1, p.2))

/-- The anchored email regular expression of register, as a decision
procedure: the string splits at some at-sign into a valid local part
(dot-atoms or quoted) and a valid domain (bracketed IP or dotted labels). -/
def emailValid (s : String) : Bool :=
  (atSplits s.data).any
    (fun p => (localDotAtoms p.1 || localQuoted p.1) && (domainIP p.2 || domainLabels p.2))

/-- The User entity as read and written by the controller.  The activation
flag defaults to false at creation.  Creation and update timestamps carried
by the entity are never read by any workflow operation and are omitted. -/
structure User where
  uid : String
  given_name : String
  maiden_name : String
  email_address : String
  password : String
  is_activated : Bool
deriving DecidableEq, Repr

/-- The VerificationToken entity: primary key and owning user id. -/
structure Token where
  tid : String
  user_id : String
deriving DecidableEq, Repr

/-- The payload signed on sign-in: every User field except the password
hash (the rest destructuring in signIn). -/
structure SignedUser where
  uid : String
  given_name : String
  maiden_name : String
  email_address : String
  is_activated : Bool
deriving DecidableEq, Repr

/-- The rest destructuring `const \x7b password, ...payload \x7d = user`. -/
def stripPassword (u : User) : SignedUser :=
  { uid := u.uid, given_name := u.given_name, maiden_name := u.maiden_name,
    email_address := u.email_address, is_activated := u.is_activated }

/-- Model of the jsonwebtoken library: a signed token is the payload
together with the signing secret. -/
structure Jwt where
  payload : SignedUser
  secret : String
deriving DecidableEq, Repr

/-- Model of jsonwebtoken sign(payload, secret). -/
def jwtSign (payload : SignedUser) (secret : String) : Jwt :=
  { payload := payload, secret := secret }

/-- Modelled from the spec: the process-wide signing secret
(PassportConfig.jwt.secret; the config module is not among the sources). -/
def passportJwtSecret : String := "passport-jwt-secret"

/-- The exception classes the controller can raise (both are imported from
ts-httpexceptions; the controller only ever constructs BadRequest). -/
inductive HttpError where
  | badRequest (message : String)
  | notFound (message : String)
deriving DecidableEq, Repr

/-- Events emitted against the database service, the entity manager and the
mail collaborator, in program order. -/
inductive DBEvent where
  | startTransaction
  | commit
  | rollback
  | read
  | write
  | sendMail
deriving DecidableEq, Repr

/-- The persistent state: the User table and the Token table. -/
structure DBState where
  users : List User
  tokens : List Token
deriving DecidableEq, Repr

/-- Result of one controller operation: the outcome (value or raised
exception), the state after the operation (failure paths roll the
transaction back, so they return the initial state), and the event trace. -/
structure OpResult (α : Type) where
  outcome : Except HttpError α
  state : DBState
  events : List DBEvent

/-- Whether an outcome is a success. -/
def isOk {α : Type} : Except HttpError α → Bool
  | Except.ok _ => true
  | Except.error _ => false

/-- Whether an outcome is a raised NotFound exception. -/
def isNotFound {α : Type} : Except HttpError α → Bool
  | Except.error (HttpError.notFound _) => true
  | _ => false

/-- Model of manager.save(user): update in place when a row with the same
primary key exists, insert at the end otherwise. -/
def saveUser (users : List User) (u : User) : List User :=
  if users.any (fun v => v.uid == u.uid) then
    users.map (fun v => if v.uid == u.uid then u else v)
  else
    users ++ [u]

/-- Model of manager.save(token) for a fresh token: insert at the end. -/
def saveToken (tokens : List Token) (t : Token) : List Token :=
  tokens ++ [t]

/-- Model of manager.remove(Token, token): delete the row with that primary
key. -/
def removeToken (tokens : List Token) (t : Token) : List Token :=
  tokens.filter (fun x => !(x.tid == t.tid))

/-- signIn(email_address, password), embedded from AuthenticationController.
The method opens no transaction: it only performs the findOne read.  The
password test reproduces the source exactly: the request is rejected when
compareSync returns TRUE (the comparison is not negated in the source). -/
def signIn (s : DBState) (email_address password : String) : OpResult Jwt :=
  match s.users.find? (fun u => u.email_address == email_address) with
  | none =>
    { outcome := Except.error (HttpError.badRequest
        "Sign in failed! Please check your email address or password."),
      state := s, events := [DBEvent.read] }
  | some user =>
    if compareSync password user.password then
      { outcome := Except.error (HttpError.badRequest
          "Sign in failed! Please check your email address or password."),
        state := s, events := [DBEvent.read] }
    else
      { outcome := Except.ok (jwtSign (stripPassword user) passportJwtSecret),
        state := s, events := [DBEvent.read] }

/-- register(given_name, maiden_name, email_address, password,
password_confirmation), embedded from AuthenticationController.  uid and
tid stand for the primary keys the persistence layer generates for the new
User row and the new Token row. -/
def register (s : DBState)
    (given_name maiden_name email_address password password_confirmation : String)
    (uid tid : String) : OpResult String :=
  if !emailValid email_address then
    { outcome := Except.error (HttpError.badRequest
        ("Registration failed. Email address \"" ++ email_address ++
          "\" is not a valid email address.")),
      state := s, events := [DBEvent.startTransaction, DBEvent.rollback] }
  else
    match s.users.find? (fun u => u.email_address == email_address) with
    | some _ =>
      { outcome := Except.error (HttpError.badRequest
          ("User with email address " ++ email_address ++ " is already registered.")),
        state := s,
        events := [DBEvent.startTransaction, DBEvent.read, DBEvent.rollback] }
    | none =>
      if password != password_confirmation then
        { outcome := Except.error (HttpError.badRequest
            "Your password did not match confirmation."),
          state := s,
          events := [DBEvent.startTransaction, DBEvent.read, DBEvent.rollback] }
      else
        let user : User :=
          { uid := uid, given_name := given_name, maiden_name := maiden_name,
            email_address := email_address,
            password := hashSync password 10, is_activated := false }
        let token : Token := { tid := tid, user_id := user.uid }
        { outcome := Except.ok
            "You are successfully registered. Please check your email inbox to activate your account.",
          state := { users := s.users ++ [user], tokens := saveToken s.tokens token },
          events := [DBEvent.startTransaction, DBEvent.read, DBEvent.write,
            DBEvent.write, DBEvent.sendMail, DBEvent.commit] }

/-- activate(email_address, token), embedded from AuthenticationController. -/
def activate (s : DBState) (email_address token_id : String) : OpResult String :=
  match s.users.find? (fun u => u.email_address == email_address) with
  | none =>
    { outcome := Except.error (HttpError.badRequest
        ("There is no account registered with email address " ++ email_address ++ ".")),
      state := s,
      events := [DBEvent.startTransaction, DBEvent.read, DBEvent.rollback] }
  | some user =>
    match s.tokens.find? (fun t => t.tid == token_id) with
    | none =>
      { outcome := Except.error (HttpError.badRequest
          "Your activation token is invalid. Please re-check your activation link!"),
        state := s,
        events := [DBEvent.startTransaction, DBEvent.read, DBEvent.read, DBEvent.rollback] }
    | some token =>
      if token.user_id != user.uid then
        { outcome := Except.error (HttpError.badRequest
            "Your activation token is invalid. Please re-check your activation link!"),
          state := s,
          events := [DBEvent.startTransaction, DBEvent.read, DBEvent.read, DBEvent.rollback] }
      else
        { outcome := Except.ok
            "Your account has been successfully activated. You now may sign in to enjoy our services.",
          state := { users := saveUser s.users { user with is_activated := true },
                     tokens := removeToken s.tokens token },
          events := [DBEvent.startTransaction, DBEvent.read, DBEvent.read,
            DBEvent.write, DBEvent.write, DBEvent.sendMail, DBEvent.commit] }

/-- forgetPassword(email_address), embedded from AuthenticationController.
tid stands for the primary key generated for the new Token row. -/
def forgetPassword (s : DBState) (email_address : String) (tid : String) :
    OpResult String :=
  match s.users.find? (fun u => u.email_address == email_address) with
  | none =>
    { outcome := Except.error (HttpError.badRequest
        ("There is no account registered with email address " ++ email_address ++ ".")),
      state := s,
      events := [DBEvent.startTransaction, DBEvent.read, DBEvent.rollback] }
  | some user =>
    { outcome := Except.ok
        "A recovery email has been sent to your email address. Please check your email inbox to recover your account.",
      state := { users := s.users,
                 tokens := saveToken s.tokens { tid := tid, user_id := user.uid } },
      events := [DBEvent.startTransaction, DBEvent.read, DBEvent.write,
        DBEvent.sendMail, DBEvent.commit] }

/-- recover(email_address, token, password, password_confirmation), embedded
from AuthenticationController (note: recover sends no mail). -/
def recover (s : DBState)
    (email_address token_id password password_confirmation : String) :
    OpResult String :=
  match s.users.find? (fun u => u.email_address == email_address) with
  | none =>
    { outcome := Except.error (HttpError.badRequest
        ("There is no account registered with email address " ++ email_address ++ ".")),
      state := s,
      events := [DBEvent.startTransaction, DBEvent.read, DBEvent.rollback] }
  | some user =>
    match s.tokens.find? (fun t => t.tid == token_id) with
    | none =>
      { outcome := Except.error (HttpError.badRequest
          "Your recovery token is invalid. Please re-check your activation link!"),
        state := s,
        events := [DBEvent.startTransaction, DBEvent.read, DBEvent.read, DBEvent.rollback] }
    | some token =>
      if token.user_id != user.uid then
        { outcome := Except.error (HttpError.badRequest
            "Your recovery token is invalid. Please re-check your activation link!"),
          state := s,
          events := [DBEvent.startTransaction, DBEvent.read, DBEvent.read, DBEvent.rollback] }
      else
        if password != password_confirmation then
          { outcome := Except.error (HttpError.badRequest
              "Your password did not match confirmation."),
            state := s,
            events := [DBEvent.startTransaction, DBEvent.read, DBEvent.read, DBEvent.rollback] }
        else
          { outcome := Except.ok
              "Your account has been successfully recovered. You now may sign in with newly created passwords.",
            state := { users := saveUser s.users { user with password := hashSync password 10 },
                       tokens := removeToken s.tokens token },
            events := [DBEvent.startTransaction, DBEvent.read, DBEvent.read,
              DBEvent.write, DBEvent.write, DBEvent.commit] }

/-- Transaction discipline of one operation result: the very first gateway
event opens the transaction (so it precedes every read and write), a failure
outcome ends in a rollback and never commits, and a success outcome commits
exactly once and never rolls back. -/
def txnSpec {α : Type} (r : OpResult α) : Prop :=
  r.events.head? = some DBEvent.startTransaction ∧
  match r.outcome with
  | Except.error _ =>
      r.events.getLast? = some DBEvent.rollback ∧ r.events.count DBEvent.commit = 0
  | Except.ok _ =>
      r.events.count DBEvent.commit = 1 ∧ r.events.count DBEvent.rollback = 0

/-- Fixture: a registered, not yet activated user whose stored digest was
produced from the password pw. -/
def annUser : User :=
  { uid := "u1", given_name := "Ann", maiden_name := "Lee",
    email_address := "ann@x.com", password := hashSync "pw" 10,
    is_activated := false }

/-- Fixture: a second user whose stored digest was produced from the
password old. -/
def bobUser : User :=
  { uid := "u2", given_name := "Bob", maiden_name := "Kim",
    email_address := "bob@x.com", password := hashSync "old" 10,
    is_activated := true }

/-- Fixture: empty database. -/
def emptyState : DBState := { users := [], tokens := [] }

/-- Fixture: one user and one verification token owned by that user. -/
def demoState : DBState :=
  { users := [annUser], tokens := [{ tid := "t1", user_id := "u1" }] }

/-- Fixture: one user and one verification token owned by that user, for
the recovery scenario. -/
def recoverDemo : DBState :=
  { users := [bobUser], tokens := [{ tid := "t2", user_id := "u2" }] }

/-- Fixture: two users, and one token owned by the second user. -/
def twoUserState : DBState :=
  { users := [annUser, bobUser], tokens := [{ tid := "t9", user_id := "u2" }] }

/-- Fixture: the state left by a successful forgetPassword request for
annUser, holding a recovery-created token t7. -/
def fpState : DBState :=
  (forgetPassword { users := [annUser], tokens := [] } "ann@x.com" "t7").state

/-- After removing the token found for a given id, no token with that id
remains. -/
theorem find?_removeToken_self (tokens : List Token) (token : Token) (tid : String)
    (h : tokens.find? (fun t => t.tid == tid) = some token) :
    (removeToken tokens token).find? (fun t => t.tid == tid) = none := by
  have htid : token.tid = tid := by simpa using List.find?_some h
  rw [List.find?_eq_none]
  intro x hx
  rw [removeToken, List.mem_filter] at hx
  have hne : ¬ x.tid = token.tid := by simpa using hx.2
  simpa [htid] using fun hc => hne (htid ▸ hc)

/-- Saving a user whose primary key is already present updates in place. -/
theorem saveUser_eq_map (users : List User) (u' user : User)
    (hmem : user ∈ users) (hid : u'.uid = user.uid) :
    saveUser users u' = users.map (fun v => if v.uid == u'.uid then u' else v) := by
  unfold saveUser
  rw [if_pos]
  rw [List.any_eq_true]
  exact ⟨user, hmem, by simp [hid]⟩

/-- Updating in place the row that find?-by-email returns (with a row of
the same key and the same email) makes find?-by-email return the updated
row, provided primary keys are distinct. -/
theorem find?_email_update (users : List User) (ea : String) (user u' : User)
    (hnd : (users.map User.uid).Nodup)
    (hf : users.find? (fun u => u.email_address == ea) = some user)
    (hid : u'.uid = user.uid) (hem : u'.email_address = user.email_address) :
    (users.map (fun v => if v.uid == u'.uid then u' else v)).find?
      (fun u => u.email_address == ea) = some u' := by
  induction users with
  | nil => simp at hf
  | cons v rest ih =>
    simp only [List.map_cons, List.nodup_cons] at hnd
    by_cases hv : (v.email_address == ea) = true
    · have hv_user : v = user := by
        rw [List.find?_cons_of_pos (p := fun (u : User) => u.email_address == ea) rest hv] at hf
        exact Option.some.inj hf
      subst hv_user
      rw [List.map_cons]
      have hhead : (if v.uid == u'.uid then u' else v) = u' := by
        rw [if_pos]
        simp [hid]
      rw [hhead]
      apply List.find?_cons_of_pos
      rw [hem]
      exact hv
    · rw [List.find?_cons_of_neg (p := fun (u : User) => u.email_address == ea) rest hv] at hf
      have hmem : user ∈ rest := List.mem_of_find?_eq_some hf
      have hvne : ¬ v.uid = u'.uid := by
        intro he
        apply hnd.1
        rw [he, hid]
        exact List.mem_map_of_mem User.uid hmem
      rw [List.map_cons]
      have hhead : (if v.uid == u'.uid then u' else v) = v := by
        rw [if_neg]
        simpa using hvne
      rw [hhead]
      rw [List.find?_cons_of_neg (p := fun (u : User) => u.email_address == ea) _ hv]
      exact ih hnd.2 hf

/-- Claim C1: the claimed contract of signIn — fail exactly when the user
is unknown or the password does not verify, succeed otherwise — is violated
by the source: the compareSync result is not negated, so the request is
rejected exactly when the password DOES verify.  At the fixture state, the
correct password pw is rejected with the generic message while a wrong
password is accepted and yields a token. -/
theorem signIn_rejects_correct_password :
    (signIn demoState "ann@x.com" "pw").outcome =
      Except.error (HttpError.badRequest
        "Sign in failed! Please check your email address or password.") ∧
    isOk (signIn demoState "ann@x.com" "totally-wrong").outcome = true := by
  exact ⟨rfl, by decide⟩

/-- Claim C2, counterexample: signIn is one of the five workflow operations
yet opens no transaction at all — its only gateway event is the findOne
read, so no startTransaction precedes that read and nothing is ever
committed or rolled back. -/
theorem signIn_opens_no_transaction :
    (signIn demoState "ann@x.com" "pw").events = [DBEvent.read] ∧
    (signIn demoState "ann@x.com" "pw").events.count DBEvent.startTransaction = 0 := by
  exact ⟨rfl, rfl⟩

/-- Claim C2, amended: register, activate, forgetPassword and recover each
open a transaction as their first gateway action (hence before any read or
write), roll back before surfacing every failure and commit exactly once on
success; signIn, however, performs its read without any transaction. -/
theorem transaction_discipline :
    (∀ s gn mn ea pw pc uid tid, txnSpec (register s gn mn ea pw pc uid tid)) ∧
    (∀ s ea tid, txnSpec (activate s ea tid)) ∧
    (∀ s ea tid, txnSpec (forgetPassword s ea tid)) ∧
    (∀ s ea tid pw pc, txnSpec (recover s ea tid pw pc)) ∧
    (∀ s ea pw, (signIn s ea pw).events.count DBEvent.startTransaction = 0) := by
  refine ⟨?_, ?_, ?_, ?_, ?_⟩
  · intro s gn mn ea pw pc uid tid
    unfold register
    split
    · exact ⟨rfl, rfl, rfl⟩
    · split
      · exact ⟨rfl, rfl, rfl⟩
      · split
        · exact ⟨rfl, rfl, rfl⟩
        · exact ⟨rfl, rfl, rfl⟩
  · intro s ea tid
    unfold activate
    split
    · exact ⟨rfl, rfl, rfl⟩
    · split
      · exact ⟨rfl, rfl, rfl⟩
      · split
        · exact ⟨rfl, rfl, rfl⟩
        · exact ⟨rfl, rfl, rfl⟩
  · intro s ea tid
    unfold forgetPassword
    split
    · exact ⟨rfl, rfl, rfl⟩
    · exact ⟨rfl, rfl, rfl⟩
  · intro s ea tid pw pc
    unfold recover
    split
    · exact ⟨rfl, rfl, rfl⟩
    · split
      · exact ⟨rfl, rfl, rfl⟩
      · split
        · exact ⟨rfl, rfl, rfl⟩
        · split
          · exact ⟨rfl, rfl, rfl⟩
          · exact ⟨rfl, rfl, rfl⟩
  · intro s ea pw
    unfold signIn
    split
    · rfl
    · split <;> rfl

/-- Claim C3, counterexample: on an unknown email address, activate,
forgetPassword and recover all fail, but none of them raises the NotFound
exception class — every one raises BadRequest. -/
theorem unknown_email_not_notFound :
    isOk (activate emptyState "ghost@x.com" "t1").outcome = false ∧
    isOk (forgetPassword emptyState "ghost@x.com" "t9").outcome = false ∧
    isOk (recover emptyState "ghost@x.com" "t1" "a" "a").outcome = false ∧
    isNotFound (activate emptyState "ghost@x.com" "t1").outcome = false ∧
    isNotFound (forgetPassword emptyState "ghost@x.com" "t9").outcome = false ∧
    isNotFound (recover emptyState "ghost@x.com" "t1" "a" "a").outcome = false := by
  decide

/-- Claim C3, amended: on an email address for which no User exists, each
of activate, forgetPassword and recover fails, with a BadRequest (HTTP 400)
error stating no account is registered with that address — not with a
NotFound (404) error. -/
theorem unknown_email_fails_badRequest (s : DBState) (ea tid pw pc : String)
    (h : s.users.find? (fun u => u.email_address == ea) = none) :
    (activate s ea tid).outcome = Except.error (HttpError.badRequest
      ("There is no account registered with email address " ++ ea ++ ".")) ∧
    (forgetPassword s ea tid).outcome = Except.error (HttpError.badRequest
      ("There is no account registered with email address " ++ ea ++ ".")) ∧
    (recover s ea tid pw pc).outcome = Except.error (HttpError.badRequest
      ("There is no account registered with email address " ++ ea ++ ".")) := by
  unfold activate forgetPassword recover
  rw [h]
  exact ⟨rfl, rfl, rfl⟩

/-- Witness for unknown_email_fails_badRequest at the empty database. -/
theorem unknown_email_fails_badRequest_witness :
    (activate emptyState "ghost@x.com" "t1").outcome = Except.error (HttpError.badRequest
      ("There is no account registered with email address " ++ "ghost@x.com" ++ ".")) ∧
    (forgetPassword emptyState "ghost@x.com" "t1").outcome = Except.error (HttpError.badRequest
      ("There is no account registered with email address " ++ "ghost@x.com" ++ ".")) ∧
    (recover emptyState "ghost@x.com" "t1" "a" "b").outcome = Except.error (HttpError.badRequest
      ("There is no account registered with email address " ++ "ghost@x.com" ++ ".")) :=
  unknown_email_fails_badRequest emptyState "ghost@x.com" "t1" "a" "b" rfl

/-- Shape of a successful activate call: a user was found by email, a token
was found by id, the token is owned by that user, and the new state updates
the user in place and removes the token. -/
theorem activate_ok_shape (s : DBState) (ea tid : String)
    (hok : isOk (activate s ea tid).outcome = true) :
    ∃ user token, s.users.find? (fun u => u.email_address == ea) = some user ∧
      s.tokens.find? (fun t => t.tid == tid) = some token ∧
      token.user_id = user.uid ∧
      (activate s ea tid).state =
        { users := saveUser s.users { user with is_activated := true },
          tokens := removeToken s.tokens token } := by
  cases hu : s.users.find? (fun u => u.email_address == ea) with
  | none =>
    simp [activate, hu, isOk] at hok
  | some user =>
    cases ht : s.tokens.find? (fun t => t.tid == tid) with
    | none =>
      simp [activate, hu, ht, isOk] at hok
    | some token =>
      by_cases hmm : (token.user_id != user.uid) = true
      · simp [activate, hu, ht, hmm, isOk] at hok
      · refine ⟨user, token, rfl, rfl, by simpa using hmm, ?_⟩
        simp [activate, hu, ht, hmm]

/-- Claim C4: register on a syntactically valid, fresh email address with
matching confirmation succeeds with the confirmation message, appends
exactly one inactive User row whose stored password is the bcrypt digest of
the submitted password, appends exactly one Token row owned by the new
user, and emits exactly one mail. -/
theorem register_fresh_valid_creates (s : DBState)
    (gn mn ea pw pc uid tid : String)
    (hem : emailValid ea = true)
    (hfresh : s.users.find? (fun u => u.email_address == ea) = none)
    (hpc : pw = pc) :
    (register s gn mn ea pw pc uid tid).outcome = Except.ok
      "You are successfully registered. Please check your email inbox to activate your account." ∧
    (register s gn mn ea pw pc uid tid).state.users =
      s.users ++ [{ uid := uid, given_name := gn, maiden_name := mn,
                    email_address := ea, password := hashSync pw 10,
                    is_activated := false }] ∧
    (register s gn mn ea pw pc uid tid).state.tokens =
      s.tokens ++ [{ tid := tid, user_id := uid }] ∧
    (register s gn mn ea pw pc uid tid).events.count DBEvent.sendMail = 1 := by
  subst hpc
  unfold register
  rw [hem, hfresh]
  simp [saveToken]

/-- Witness for register_fresh_valid_creates on the empty database. -/
theorem register_fresh_valid_creates_witness :
    (register emptyState "Ann" "Lee" "ann@x.com" "pw" "pw" "u1" "t1").outcome = Except.ok
      "You are successfully registered. Please check your email inbox to activate your account." ∧
    (register emptyState "Ann" "Lee" "ann@x.com" "pw" "pw" "u1" "t1").state.users =
      emptyState.users ++ [{ uid := "u1", given_name := "Ann", maiden_name := "Lee",
                             email_address := "ann@x.com", password := hashSync "pw" 10,
                             is_activated := false }] ∧
    (register emptyState "Ann" "Lee" "ann@x.com" "pw" "pw" "u1" "t1").state.tokens =
      emptyState.tokens ++ [{ tid := "t1", user_id := "u1" }] ∧
    (register emptyState "Ann" "Lee" "ann@x.com" "pw" "pw" "u1" "t1").events.count
      DBEvent.sendMail = 1 :=
  register_fresh_valid_creates emptyState "Ann" "Lee" "ann@x.com" "pw" "pw" "u1" "t1"
    (by decide) rfl rfl

/-- Claim C5: whenever activate succeeds (on a state whose user primary
keys are distinct), the consumed token is gone from the resulting state,
the user found by that email address is activated, and repeating the very
same activate call fails with the invalid-token error. -/
theorem activate_consumes_token (s : DBState) (ea tid : String)
    (hnd : (s.users.map User.uid).Nodup)
    (hok : isOk (activate s ea tid).outcome = true) :
    (activate s ea tid).state.tokens.find? (fun t => t.tid == tid) = none ∧
    (∃ u, (activate s ea tid).state.users.find? (fun u => u.email_address == ea) = some u ∧
      u.is_activated = true) ∧
    (activate (activate s ea tid).state ea tid).outcome =
      Except.error (HttpError.badRequest
        "Your activation token is invalid. Please re-check your activation link!") := by
  obtain ⟨user, token, hu, ht, hown, hstate⟩ := activate_ok_shape s ea tid hok
  have h1 : (removeToken s.tokens token).find? (fun t => t.tid == tid) = none :=
    find?_removeToken_self s.tokens token tid ht
  have hmem : user ∈ s.users := List.mem_of_find?_eq_some hu
  have h2 : (saveUser s.users { user with is_activated := true }).find?
      (fun u => u.email_address == ea) = some { user with is_activated := true } := by
    rw [saveUser_eq_map s.users { user with is_activated := true } user hmem rfl]
    exact find?_email_update s.users ea user { user with is_activated := true } hnd hu rfl rfl
  refine ⟨?_, ?_, ?_⟩
  · rw [hstate]
    exact h1
  · rw [hstate]
    exact ⟨_, h2, rfl⟩
  · rw [hstate]
    simp [activate, h2, h1]

/-- Witness for activate_consumes_token at the demo state. -/
theorem activate_consumes_token_witness :
    (activate demoState "ann@x.com" "t1").state.tokens.find?
      (fun t => t.tid == "t1") = none ∧
    (∃ u, (activate demoState "ann@x.com" "t1").state.users.find?
      (fun u => u.email_address == "ann@x.com") = some u ∧ u.is_activated = true) ∧
    (activate (activate demoState "ann@x.com" "t1").state "ann@x.com" "t1").outcome =
      Except.error (HttpError.badRequest
        "Your activation token is invalid. Please re-check your activation link!") :=
  activate_consumes_token demoState "ann@x.com" "t1" (by decide) (by decide)

/-- Claim C6: after this successful recover, the consumed token is gone,
but — because the signIn comparison is unnegated in the source — signIn
with the NEW password is rejected while signIn with the OLD password
yields a token: the claimed relation fails on the code. -/
theorem recover_then_signIn_inverted :
    isOk (recover recoverDemo "bob@x.com" "t2" "new" "new").outcome = true ∧
    (recover recoverDemo "bob@x.com" "t2" "new" "new").state.tokens.find?
      (fun t => t.tid == "t2") = none ∧
    isOk (signIn (recover recoverDemo "bob@x.com" "t2" "new" "new").state
      "bob@x.com" "new").outcome = false ∧
    isOk (signIn (recover recoverDemo "bob@x.com" "t2" "new" "new").state
      "bob@x.com" "old").outcome = true := by
  decide

/-- Claim C7: activate with a token owned by a different user fails with
the invalid-token BadRequest and leaves the state (hence the activation
flag of the target user) unchanged. -/
theorem activate_foreign_token_rejected (s : DBState) (ea tid : String)
    (u : User) (t : Token)
    (hu : s.users.find? (fun v => v.email_address == ea) = some u)
    (ht : s.tokens.find? (fun x => x.tid == tid) = some t)
    (hmism : t.user_id ≠ u.uid) :
    (activate s ea tid).outcome = Except.error (HttpError.badRequest
      "Your activation token is invalid. Please re-check your activation link!") ∧
    (activate s ea tid).state = s := by
  have hb : (t.user_id != u.uid) = true := by simpa using hmism
  simp [activate, hu, ht, hb]

/-- Witness for activate_foreign_token_rejected: token t9 belongs to
bobUser, activate targets annUser. -/
theorem activate_foreign_token_rejected_witness :
    (activate twoUserState "ann@x.com" "t9").outcome =
      Except.error (HttpError.badRequest
        "Your activation token is invalid. Please re-check your activation link!") ∧
    (activate twoUserState "ann@x.com" "t9").state = twoUserState :=
  activate_foreign_token_rejected twoUserState "ann@x.com" "t9" annUser
    { tid := "t9", user_id := "u2" } rfl rfl (by decide)

/-- Claim C8: the two error branches of signIn do carry byte-identical
generic messages, but the claim fails on the code: with an existing email
and a NON-matching password signIn does not fail at all — it returns a
token (the unnegated compareSync rejects exactly the matching password). -/
theorem signIn_wrong_password_succeeds :
    isOk (signIn demoState "ann@x.com" "not-the-password").outcome = true ∧
    (signIn demoState "ghost@x.com" "pw").outcome = Except.error (HttpError.badRequest
      "Sign in failed! Please check your email address or password.") ∧
    (signIn demoState "ann@x.com" "pw").outcome = Except.error (HttpError.badRequest
      "Sign in failed! Please check your email address or password.") := by
  exact ⟨by decide, rfl, rfl⟩

/-- Claim C9: register with a valid fresh email address but mismatched
password confirmation fails with the mismatch BadRequest, leaves the
database unchanged (no User row) and emits no mail. -/
theorem register_mismatched_confirmation (s : DBState)
    (gn mn ea pw pc uid tid : String)
    (hem : emailValid ea = true)
    (hfresh : s.users.find? (fun u => u.email_address == ea) = none)
    (hne : pw ≠ pc) :
    (register s gn mn ea pw pc uid tid).outcome =
      Except.error (HttpError.badRequest "Your password did not match confirmation.") ∧
    (register s gn mn ea pw pc uid tid).state = s ∧
    (register s gn mn ea pw pc uid tid).events.count DBEvent.sendMail = 0 := by
  unfold register
  rw [hem, hfresh]
  simp [hne]

/-- Witness for register_mismatched_confirmation on the empty database. -/
theorem register_mismatched_confirmation_witness :
    (register emptyState "Ann" "Lee" "ann@x.com" "a" "b" "u1" "t1").outcome =
      Except.error (HttpError.badRequest "Your password did not match confirmation.") ∧
    (register emptyState "Ann" "Lee" "ann@x.com" "a" "b" "u1" "t1").state = emptyState ∧
    (register emptyState "Ann" "Lee" "ann@x.com" "a" "b" "u1" "t1").events.count
      DBEvent.sendMail = 0 :=
  register_mismatched_confirmation emptyState "Ann" "Lee" "ann@x.com" "a" "b" "u1" "t1"
    (by decide) rfl (by decide)

/-- Claim C10: tokens carry no purpose. For ANY stored token, existence
under the supplied id plus ownership by the user found under the supplied
email is the entire acceptance condition: both activate and recover (with
matching confirmation) succeed on it, however the token was created. -/
theorem token_accepted_by_activate_and_recover (s : DBState)
    (ea tid pw : String) (u : User) (t : Token)
    (hu : s.users.find? (fun v => v.email_address == ea) = some u)
    (ht : s.tokens.find? (fun x => x.tid == tid) = some t)
    (hown : t.user_id = u.uid) :
    (activate s ea tid).outcome = Except.ok
      "Your account has been successfully activated. You now may sign in to enjoy our services." ∧
    (recover s ea tid pw pw).outcome = Except.ok
      "Your account has been successfully recovered. You now may sign in with newly created passwords." := by
  simp [activate, recover, hu, ht, hown]

/-- Witness for token_accepted_by_activate_and_recover on a state produced
by forgetPassword: the recovery-created token t7 is accepted by activate
just as by recover. -/
theorem token_accepted_witness :
    (activate fpState "ann@x.com" "t7").outcome = Except.ok
      "Your account has been successfully activated. You now may sign in to enjoy our services." ∧
    (recover fpState "ann@x.com" "t7" "npw" "npw").outcome = Except.ok
      "Your account has been successfully recovered. You now may sign in with newly created passwords." :=
  token_accepted_by_activate_and_recover fpState "ann@x.com" "t7" "npw" annUser
    { tid := "t7", user_id := "u1" } rfl rfl rfl

end PoS
